import Mathlib

/-!
Shallow embedding of the Aleph Zero balance-sweep agent (src/index.js).

The source file holds three variants of the agent:
* a timer-driven sweeper using `transferKeepAlive` with a live fee estimate
  (`sweepIfNeeded`, lines 36-96);
* a timer-driven sweeper using `transferAll` (lines 99-180, not referenced
  by the claims);
* a block-subscription sweeper using `transferAll` with a fixed fee buffer
  and a capped tip (`subscribeNewHeads` handler, lines 212-280).

Balances and fees are arbitrary-precision BN values read from the chain;
the keep-alive variant only ever handles the nonnegative chain-reported
quantities, so it is embedded over `Nat`, while the block-subscription
handler performs a signed subtraction followed by an explicit clamp and is
embedded over `Int` (BN is signed).  External collaborators (the balance
provider `api.derive.balances.all`, the fee oracle `paymentInfo`, the
metadata registry `findMetaError`) are passed in as function arguments.
-/

namespace Azero

/-- Result of `api.derive.balances.all(sourceAccount.address)`:
free, reserved, locked and available balances (lines 41-45). -/
structure BalancesAll where
  freeBalance : Nat
  reservedBalance : Nat
  lockedBalance : Nat
  availableBalance : Nat
deriving Repr, DecidableEq

/-- The plan produced by the keep-alive sweeper: `dummyAmount` is the amount
carried by the dummy transaction handed to `paymentInfo` for fee estimation
(line 55), `amountToSend` the amount of the transaction actually signed and
sent (lines 67-70). -/
structure KAPlan where
  dummyAmount : Nat
  amountToSend : Nat
deriving Repr, DecidableEq

/-- Decision core of `sweepIfNeeded` (src/index.js lines 49-70), keep-alive
variant.  `paymentInfo amt` is the fee the oracle reports for a
`transferKeepAlive` of `amt`.  Mirrors the source: return early when
`available.lten(0)`; estimate the fee for sending the full `available`;
return early when `available.lte(fee)`; otherwise send `available - fee`. -/
def sweepIfNeededKA (paymentInfo : Nat → Nat) (available : Nat) : Option KAPlan :=
  if available ≤ 0 then
    none
  else
    let fee := paymentInfo available
    if available ≤ fee then
      none
    else
      some { dummyAmount := available, amountToSend := available - fee }

/-- Outcome of one full run of `sweepIfNeeded` (lines 36-93): a submission,
an early return with no submission, or an error caught by the surrounding
`try`/`catch` and logged (lines 90-92). -/
inductive SweepOutcome
  | submitted (plan : KAPlan)
  | noSweep
  | errorLogged (msg : String)
deriving Repr, DecidableEq

/-- One run of `sweepIfNeeded` with its fallible collaborators: the balance
read (`await api.derive.balances.all`) and the fee oracle
(`await dummyTx.paymentInfo`) may throw; the `try`/`catch` spanning the whole
body (lines 37-92) converts any such error into a logged message and a
normal return. -/
def sweepIfNeededRun (getBalances : Except String BalancesAll)
    (paymentInfo : Nat → Except String Nat) : SweepOutcome :=
  match getBalances with
  | .error e => .errorLogged e
  | .ok balancesAll =>
    let available := balancesAll.availableBalance
    if available ≤ 0 then
      .noSweep
    else
      match paymentInfo available with
      | .error e => .errorLogged e
      | .ok fee =>
        if available ≤ fee then
          .noSweep
        else
          .submitted { dummyAmount := available, amountToSend := available - fee }

/-- The world as one timer tick observes it: the available balance the tick
reads and the fee oracle it may query.  `sweepIfNeeded` closes over no
mutable in-flight flag (its free variables are `api`, `sourceAccount`,
`TARGET_ADDRESS`, `transferMethod` only), so a tick's behaviour is a
function of this environment alone. -/
structure TriggerEnv where
  available : Nat
  paymentInfo : Nat → Nat

/-- The agent loop `setInterval(sweepIfNeeded, 1000)` (line 96): every timer
tick runs `sweepIfNeeded` on the environment at that tick, with no check of
any in-flight attempt. -/
def runTriggers (envs : List TriggerEnv) : List (Option KAPlan) :=
  envs.map (fun e => sweepIfNeededKA e.paymentInfo e.available)

/-- Number of `signAndSend` submission calls issued over a run of the agent
loop: one per tick whose decision produced a plan (line 73 is reached
exactly when neither early return fired). -/
def submissionCount (envs : List TriggerEnv) : Nat :=
  List.countP (fun p => p.isSome) (runTriggers envs)

/-- One AZERO in plancks (src/index.js line 191): `new BN('1000000000000')`.
The tip cap of the block-subscription variant. -/
def ONE_AZERO : Int := 1000000000000

/-- Fixed fee buffer (line 195): `new BN('50000000')`, 0.00005 AZERO.  The
fee reserve of the block-subscription variant; no live estimate is used. -/
def FEE_BUFFER : Int := 50000000

/-- The plan produced by the block-subscription drain sweeper:
`api.tx.balances.transferAll(TARGET_ADDRESS, false)` signed and sent with
tip `tip` (lines 236-253). -/
structure DrainPlan where
  keepAliveFlag : Bool
  tip : Int
deriving Repr, DecidableEq

/-- Decision core of the `subscribeNewHeads` handler (lines 230-246).
Mirrors the source: return early when `available.lten(0)`; build the
`transferAll(TARGET_ADDRESS, false)` extrinsic; compute
`leftover = available.sub(FEE_BUFFER)`, clamp it to zero when
`leftover.lten(0)`, and tip `BN.min(leftover, ONE_AZERO)`. -/
def newHeadsHandler (available : Int) : Option DrainPlan :=
  if available ≤ 0 then
    none
  else
    let leftover := available - FEE_BUFFER
    let leftover := if leftover ≤ 0 then 0 else leftover
    some { keepAliveFlag := false, tip := min leftover ONE_AZERO }

/-- The world as one new-head notification observes it: the available
balance the handler reads, and the live fee estimate the node would report
at that block.  The handler never calls `paymentInfo`, so the estimate is
part of the environment but is never queried (lines 215-246 contain no fee
estimation). -/
structure HeadEnv where
  available : Int
  feeEstimate : Int
deriving Repr, DecidableEq

/-- One run of the `subscribeNewHeads` handler on its environment: only the
available balance is consulted. -/
def newHeadsPlan (env : HeadEnv) : Option DrainPlan :=
  newHeadsHandler env.available

/-- Transaction status as delivered to the `signAndSend` callback by the
chain client: pool states, inclusion, finality, and the drop/invalid
outcomes. -/
inductive TxStatus
  | ready
  | broadcast
  | inBlock (blockHash : String)
  | finalized (blockHash : String)
  | retracted (blockHash : String)
  | dropped
  | invalid
deriving Repr, DecidableEq

/-- Mirrors `status.isInBlock`. -/
def TxStatus.isInBlock : TxStatus → Bool
  | .inBlock _ => true
  | _ => false

/-- Mirrors `status.isFinalized`. -/
def TxStatus.isFinalized : TxStatus → Bool
  | .finalized _ => true
  | _ => false

/-- Dispatch error attached to a status update: a module error carrying the
index looked up via `api.registry.findMetaError(dispatchError.asModule)`, or
any other error rendered by `toString` (lines 76-83). -/
inductive DispatchError
  | moduleErr (idx : Nat)
  | otherErr (descr : String)
deriving Repr, DecidableEq

/-- Result of `api.registry.findMetaError`: the destructured
`{ name, section }` of line 79. -/
structure MetaError where
  name : String
  sectionName : String
deriving Repr, DecidableEq

/-- One `({ status, dispatchError })` argument of the `signAndSend`
callback. -/
structure StatusUpdate where
  status : TxStatus
  dispatchError : Option DispatchError
deriving Repr, DecidableEq

/-- What the callback reports when it fires: line 85 on success, line 80 for
a module error (logged as `section.name`), line 82 otherwise. -/
inductive SweepReport
  | successReport
  | moduleErrorReport (sectionName : String) (name : String)
  | otherErrorReport (descr : String)
deriving Repr, DecidableEq

/-- What one callback invocation does: nothing when the status is neither
in-block nor finalized (the `if` on line 74 is not taken), or log a report
and call `unsub()` (line 87). -/
inductive CallbackAction
  | ignore
  | report (r : SweepReport)
deriving Repr, DecidableEq

/-- The `signAndSend` callback body (src/index.js lines 73-88):
`if (status.isInBlock || status.isFinalized)` inspect `dispatchError`, log
the matching report, and unsubscribe; otherwise do nothing.
`findMetaError` is the registry lookup collaborator. -/
def signAndSendCallback (findMetaError : Nat → MetaError)
    (status : TxStatus) (dispatchError : Option DispatchError) : CallbackAction :=
  if status.isInBlock || status.isFinalized then
    match dispatchError with
    | some (.moduleErr idx) =>
      .report (.moduleErrorReport (findMetaError idx).sectionName (findMetaError idx).name)
    | some (.otherErr descr) => .report (.otherErrorReport descr)
    | none => .report .successReport
  else
    .ignore

/-- Aggregate outcome of feeding a status stream to the callback: the report
logged at unsubscription, if any, and how many updates the callback observed
before the subscription ended (or the stream ran out). -/
structure TrackerRun where
  report : Option SweepReport
  observed : Nat
deriving Repr, DecidableEq

/-- Feed a stream of status updates to the `signAndSend` callback.  After
`unsub()` is called no further updates are delivered; a stream that ends
without the callback unsubscribing leaves the subscription open
(`report = none`). -/
def runCallback (findMetaError : Nat → MetaError) :
    List StatusUpdate → TrackerRun
  | [] => { report := none, observed := 0 }
  | u :: rest =>
    match signAndSendCallback findMetaError u.status u.dispatchError with
    | .ignore =>
      let r := runCallback findMetaError rest
      { report := r.report, observed := r.observed + 1 }
    | .report rep => { report := some rep, observed := 1 }

/-- The environment of one run of `sweepIfNeeded` with fallible
collaborators: the balance read may throw, and the fee oracle may throw. -/
structure TriggerEnvE where
  getBalances : Except String BalancesAll
  paymentInfo : Nat → Except String Nat

/-- The agent loop over fallible environments: every timer tick runs the
guarded body of `sweepIfNeeded`; the `try`/`catch` makes each tick total, so
the loop delivers one outcome per tick. -/
def runTriggersE (envs : List TriggerEnvE) : List SweepOutcome :=
  envs.map (fun e => sweepIfNeededRun e.getBalances e.paymentInfo)

end Azero

namespace Azero

/-- Helper: for a positive available balance the drain handler produces the
send-all plan with tip `min ONE_AZERO (max 0 (available - FEE_BUFFER))`. -/
theorem newHeadsHandler_eq (a : Int) (ha : 0 < a) :
    newHeadsHandler a =
      some { keepAliveFlag := false,
             tip := min ONE_AZERO (max 0 (a - FEE_BUFFER)) } := by
  have h0 : ¬ a ≤ 0 := by omega
  unfold newHeadsHandler
  simp only [h0, if_false]
  have hleft : (if a - FEE_BUFFER ≤ 0 then (0 : Int) else a - FEE_BUFFER) =
      max 0 (a - FEE_BUFFER) := by
    split <;> omega
  rw [hleft, min_comm]

/-- Helper: the keep-alive sweeper declines when the available balance does
not exceed the estimated fee. -/
theorem sweepKA_none (paymentInfo : Nat → Nat) (a : Nat)
    (h : a ≤ paymentInfo a) : sweepIfNeededKA paymentInfo a = none := by
  unfold sweepIfNeededKA
  by_cases h0 : a ≤ 0
  · simp [h0]
  · simp [h0, h]

/-- Helper: the keep-alive sweeper submits `available - fee` when the
available balance strictly exceeds the estimated fee. -/
theorem sweepKA_some (paymentInfo : Nat → Nat) (a : Nat)
    (h : paymentInfo a < a) :
    sweepIfNeededKA paymentInfo a = some ⟨a, a - paymentInfo a⟩ := by
  have h0 : ¬ a ≤ 0 := by omega
  have h1 : ¬ a ≤ paymentInfo a := by omega
  simp [sweepIfNeededKA, h0, h1]

/-- Claim C2: in keep-alive mode the decision returns a plan if and only if
`available > fee`; when it does, `amountToSend + fee = available` exactly and
`amountToSend > 0`; when `available ≤ fee` it returns `none`. -/
theorem keepAliveDecide (paymentInfo : Nat → Nat) (available : Nat) :
    (available ≤ paymentInfo available →
      sweepIfNeededKA paymentInfo available = none) ∧
    (paymentInfo available < available →
      sweepIfNeededKA paymentInfo available =
        some ⟨available, available - paymentInfo available⟩ ∧
      0 < available - paymentInfo available ∧
      (available - paymentInfo available) + paymentInfo available = available) := by
  constructor
  · intro h
    exact sweepKA_none paymentInfo available h
  · intro h
    exact ⟨sweepKA_some paymentInfo available h, by omega, by omega⟩

/-- Witness for C2 at the spec scenario `available = 10^12`,
`fee = 10^8`: the planned amount is `999900000000`. -/
theorem keepAliveDecide_witness :
    sweepIfNeededKA (fun _ => 100000000) 1000000000000 =
      some ⟨1000000000000, 999900000000⟩ :=
  ((keepAliveDecide (fun _ => 100000000) 1000000000000).2 (by decide)).1

/-- Claim C3: in drain mode with the capped-leftover tip policy, every
positive available balance yields a send-all plan whose tip is exactly
`min cap (max 0 (available - FEE_BUFFER))` with `cap = ONE_AZERO`; the tip
never exceeds the cap nor the clamped leftover, and when
`available ≤ FEE_BUFFER` the tip is zero while the sweep still proceeds. -/
theorem drainTipSpec (a : Int) (ha : 0 < a) :
    ∃ p, newHeadsHandler a = some p ∧
      p.keepAliveFlag = false ∧
      p.tip = min ONE_AZERO (max 0 (a - FEE_BUFFER)) ∧
      p.tip ≤ ONE_AZERO ∧
      p.tip ≤ max 0 (a - FEE_BUFFER) ∧
      (a ≤ FEE_BUFFER → p.tip = 0) := by
  refine ⟨_, newHeadsHandler_eq a ha, rfl, rfl, min_le_left _ _, min_le_right _ _, ?_⟩
  intro hle
  have hmax : max 0 (a - FEE_BUFFER) = 0 := by omega
  show min ONE_AZERO (max 0 (a - FEE_BUFFER)) = 0
  rw [hmax]
  decide

/-- Witness for C3 at the spec scenario `available = 10^12`: the drain plan
carries tip `min(10^12, 10^12 - 5·10^7) = 999950000000`. -/
theorem drainTipSpec_witness :
    ∃ p, newHeadsHandler 1000000000000 = some p ∧
      p.keepAliveFlag = false ∧
      p.tip = min ONE_AZERO (max 0 (1000000000000 - FEE_BUFFER)) ∧
      p.tip ≤ ONE_AZERO ∧
      p.tip ≤ max 0 (1000000000000 - FEE_BUFFER) ∧
      ((1000000000000 : Int) ≤ FEE_BUFFER → p.tip = 0) :=
  drainTipSpec 1000000000000 (by decide)

/-- Claim C4: a snapshot with `available = 0` short-circuits to no sweep in
both variants, before and independently of any fee estimation: the result is
the same for every fee oracle, including oracles that always throw. -/
theorem zeroAvailableNoSweep :
    (∀ paymentInfo : Nat → Nat, sweepIfNeededKA paymentInfo 0 = none) ∧
    (∀ (paymentInfo : Nat → Except String Nat) (free res lock : Nat),
      sweepIfNeededRun (.ok ⟨free, res, lock, 0⟩) paymentInfo = .noSweep) ∧
    (newHeadsHandler 0 = none) := by
  refine ⟨fun paymentInfo => rfl, fun paymentInfo free res lock => rfl, rfl⟩

/-- Claim C9: the block-subscription variant uses the fixed buffer
`FEE_BUFFER` as its fee reserve and never queries the live fee estimate:
two environments agreeing on the available balance — whatever their fee
estimates — produce identical plans, and the produced tip is computed
against `FEE_BUFFER`. -/
theorem fixedBufferIndependent :
    (∀ e1 e2 : HeadEnv, e1.available = e2.available →
      newHeadsPlan e1 = newHeadsPlan e2) ∧
    (∀ e : HeadEnv, 0 < e.available →
      ∃ p, newHeadsPlan e = some p ∧
        p.tip = min ONE_AZERO (max 0 (e.available - FEE_BUFFER))) := by
  constructor
  · intro e1 e2 h
    unfold newHeadsPlan
    rw [h]
  · intro e he
    exact ⟨_, by unfold newHeadsPlan; rw [newHeadsHandler_eq e.available he], rfl⟩

/-- Witness for C9: two environments with the same available balance but
fee estimates 7 and 999 produce the same plan. -/
theorem fixedBufferIndependent_witness :
    newHeadsPlan ⟨5, 7⟩ = newHeadsPlan ⟨5, 999⟩ :=
  fixedBufferIndependent.1 ⟨5, 7⟩ ⟨5, 999⟩ rfl

/-- Counterexample to claim C1: two timer ticks both observing the spec
scenario balance (`10^12` available, fee `10^8`), the first attempt still in
flight, produce two submission calls, not exactly one — `sweepIfNeeded` has
no single-flight guard to consult. -/
theorem twoTriggersTwoSubmissions :
    submissionCount
      [⟨1000000000000, fun _ => 100000000⟩,
       ⟨1000000000000, fun _ => 100000000⟩] = 2 ∧ (2 : Nat) ≠ 1 := by
  exact ⟨rfl, by decide⟩

/-- Claim C1 as amended: no single-flight guard exists; each trigger runs an
independent attempt, so any two triggers whose snapshots permit a sweep each
issue a submission — two triggers, two submission calls. -/
theorem noSingleFlightGuard (e1 e2 : TriggerEnv)
    (h1 : (sweepIfNeededKA e1.paymentInfo e1.available).isSome = true)
    (h2 : (sweepIfNeededKA e2.paymentInfo e2.available).isSome = true) :
    submissionCount [e1, e2] = 2 := by
  simp [submissionCount, runTriggers, List.countP_cons, List.countP_nil, h1, h2]

/-- Witness for the amended C1 at two concrete sweep-permitting ticks. -/
theorem noSingleFlightGuard_witness :
    submissionCount
      [⟨1000000000000, fun _ => 100000000⟩, ⟨300, fun _ => 100⟩] = 2 :=
  noSingleFlightGuard ⟨1000000000000, fun _ => 100000000⟩ ⟨300, fun _ => 100⟩
    (by decide) (by decide)

/-- Counterexample to claim C5: an attempt whose status stream ends
`Dropped` (never in-block, never finalized) terminates with the
status-update subscription still open — `unsub()` is never called, because
the callback only unsubscribes on `isInBlock || isFinalized`. -/
theorem droppedLeavesSubscriptionOpen :
    (runCallback (fun _ => ⟨"", ""⟩)
      [⟨.ready, none⟩, ⟨.broadcast, none⟩, ⟨.dropped, none⟩]).report.isSome
      = false := by
  decide

/-- Claim C5 as amended: the subscription is unsubscribed (exactly once, at
the first inclusion or finality report) in the Included branches only; a
stream that never reports inclusion or finality leaves the subscription
open, and there is no single-flight guard to release. -/
theorem trackerCleanup :
    (∀ (fme : Nat → MetaError) (us : List StatusUpdate),
      (∀ u ∈ us, (u.status.isInBlock || u.status.isFinalized) = false) →
      (runCallback fme us).report = none) ∧
    (∀ (fme : Nat → MetaError) (hb : String) (de : Option DispatchError)
        (us : List StatusUpdate),
      ∃ r, runCallback fme (⟨.inBlock hb, de⟩ :: us) =
        { report := some r, observed := 1 }) := by
  constructor
  · intro fme us h
    induction us with
    | nil => rfl
    | cons u rest ih =>
      have hu := h u (List.mem_cons_self u rest)
      have hrest := fun v hv => h v (List.mem_cons_of_mem u hv)
      have hact : signAndSendCallback fme u.status u.dispatchError = .ignore := by
        unfold signAndSendCallback
        simp [hu]
      simp [runCallback, hact, ih hrest]
  · intro fme hb de us
    cases de with
    | none => exact ⟨_, rfl⟩
    | some e =>
      cases e with
      | moduleErr idx => exact ⟨_, rfl⟩
      | otherErr descr => exact ⟨_, rfl⟩

/-- Witness for the amended C5: a single `Dropped` update leaves the
subscription open. -/
theorem trackerCleanup_witness :
    (runCallback (fun _ => ⟨"", ""⟩) [⟨.dropped, none⟩]).report = none :=
  trackerCleanup.1 (fun _ => ⟨"", ""⟩) [⟨.dropped, none⟩] (by decide)

/-- Counterexample to claim C6: with a stream delivering an in-block report
and then the finality report, the callback unsubscribes at the in-block
update — it observes exactly one update, not both, so it does not keep
observing until finality. -/
theorem includedStopsObserving :
    (runCallback (fun _ => ⟨"", ""⟩)
      [⟨.inBlock "0xabc", none⟩, ⟨.finalized "0xabc", none⟩]).observed = 1 ∧
    ¬ (runCallback (fun _ => ⟨"", ""⟩)
      [⟨.inBlock "0xabc", none⟩, ⟨.finalized "0xabc", none⟩]).observed = 2 := by
  decide

/-- Claim C6 as amended: `Included` is terminal — the callback logs,
inspects the dispatch outcome and unsubscribes at the first status update
reporting inclusion or finality; no later update (in particular no separate
`Finalized` report) is observed, and there is no maximum-update bound. -/
theorem includedIsTerminal (fme : Nat → MetaError) (u : StatusUpdate)
    (us : List StatusUpdate)
    (h : (u.status.isInBlock || u.status.isFinalized) = true) :
    (runCallback fme (u :: us)).observed = 1 ∧
    (runCallback fme (u :: us)).report.isSome = true := by
  obtain ⟨st, de⟩ := u
  have hact : ∃ rep, signAndSendCallback fme st de = .report rep := by
    unfold signAndSendCallback
    simp only at h
    simp only [h, if_true]
    cases de with
    | none => exact ⟨_, rfl⟩
    | some e =>
      cases e with
      | moduleErr idx => exact ⟨_, rfl⟩
      | otherErr descr => exact ⟨_, rfl⟩
  obtain ⟨rep, hrep⟩ := hact
  simp [runCallback, hrep]

/-- Witness for the amended C6: an in-block update followed by another
update is observed alone; the subscription ends at the inclusion report. -/
theorem includedIsTerminal_witness :
    (runCallback (fun _ => ⟨"", ""⟩)
      [⟨.inBlock "0xdead", none⟩, ⟨.ready, none⟩]).observed = 1 ∧
    (runCallback (fun _ => ⟨"", ""⟩)
      [⟨.inBlock "0xdead", none⟩, ⟨.ready, none⟩]).report.isSome = true :=
  includedIsTerminal (fun _ => ⟨"", ""⟩) ⟨.inBlock "0xdead", none⟩
    [⟨.ready, none⟩] (by decide)

/-- Claim C7: a balance-provider error or a fee-estimator error is caught at
the attempt boundary and logged as no sweep this round; the loop stays
total (one outcome per tick) and later ticks are unaffected by an earlier
tick's error. -/
theorem attemptErrorsContained :
    (∀ (msg : String) (paymentInfo : Nat → Except String Nat),
      sweepIfNeededRun (.error msg) paymentInfo = .errorLogged msg) ∧
    (∀ (b : BalancesAll) (msg : String), 0 < b.availableBalance →
      sweepIfNeededRun (.ok b) (fun _ => .error msg) = .errorLogged msg) ∧
    (∀ (e : TriggerEnvE) (rest : List TriggerEnvE),
      (runTriggersE (e :: rest)).tail = runTriggersE rest ∧
      (runTriggersE (e :: rest)).length = rest.length + 1) := by
  refine ⟨fun msg paymentInfo => rfl, ?_, ?_⟩
  · intro b msg hb
    have h0 : ¬ b.availableBalance ≤ 0 := by omega
    unfold sweepIfNeededRun
    simp [h0]
  · intro e rest
    exact ⟨rfl, by simp [runTriggersE]⟩

/-- Witness for C7: a throwing fee estimator on a positive balance yields a
logged error, not a crash and not a submission. -/
theorem attemptErrorsContained_witness :
    sweepIfNeededRun (.ok ⟨0, 0, 0, 5⟩) (fun _ => .error "boom")
      = .errorLogged "boom" :=
  attemptErrorsContained.2.1 ⟨0, 0, 0, 5⟩ "boom" (by decide)

/-- Claim C8: at inclusion the callback distinguishes success from failure:
no dispatch error reports success, a module error reports `section.name`
from the registry, any other error reports its rendering; the success report
occurs exactly when there is no dispatch error, and every dispatch outcome
at inclusion is terminal (the callback reports and unsubscribes). -/
theorem includedOutcomeReported :
    (∀ (fme : Nat → MetaError) (hb : String),
      signAndSendCallback fme (.inBlock hb) none = .report .successReport) ∧
    (∀ (fme : Nat → MetaError) (hb : String) (idx : Nat),
      signAndSendCallback fme (.inBlock hb) (some (.moduleErr idx)) =
        .report (.moduleErrorReport (fme idx).sectionName (fme idx).name)) ∧
    (∀ (fme : Nat → MetaError) (hb : String) (descr : String),
      signAndSendCallback fme (.inBlock hb) (some (.otherErr descr)) =
        .report (.otherErrorReport descr)) ∧
    (∀ (fme : Nat → MetaError) (hb : String) (de : Option DispatchError),
      signAndSendCallback fme (.inBlock hb) de = .report .successReport
        ↔ de = none) ∧
    (∀ (fme : Nat → MetaError) (hb : String) (de : Option DispatchError),
      ∃ r, signAndSendCallback fme (.inBlock hb) de = .report r) := by
  refine ⟨fun fme hb => rfl, fun fme hb idx => rfl, fun fme hb descr => rfl,
    ?_, ?_⟩
  · intro fme hb de
    cases de with
    | none => exact iff_of_true rfl rfl
    | some e =>
      cases e with
      | moduleErr idx => simp [signAndSendCallback, TxStatus.isInBlock]
      | otherErr descr => simp [signAndSendCallback, TxStatus.isInBlock]
  · intro fme hb de
    cases de with
    | none => exact ⟨_, rfl⟩
    | some e =>
      cases e with
      | moduleErr idx => exact ⟨_, rfl⟩
      | otherErr descr => exact ⟨_, rfl⟩

/-- Claim C10: the keep-alive sweeper estimates the fee on a dummy transfer
of the full available balance, submits `available - fee`, and never
re-estimates for the submitted amount: the decision depends on the fee
oracle only through its value at `available`, and whenever the fee is
positive the submitted amount is strictly smaller than the amount the
estimate was taken for. -/
theorem feeEstimatedOnFullAmount :
    (∀ (paymentInfo : Nat → Nat) (a : Nat) (p : KAPlan),
      sweepIfNeededKA paymentInfo a = some p →
      p.dummyAmount = a ∧
      p.amountToSend = a - paymentInfo a ∧
      p.amountToSend + paymentInfo a = a ∧
      (0 < paymentInfo a → p.amountToSend < p.dummyAmount)) ∧
    (∀ (f g : Nat → Nat) (a : Nat), f a = g a →
      sweepIfNeededKA f a = sweepIfNeededKA g a) := by
  constructor
  · intro paymentInfo a p hp
    by_cases h : paymentInfo a < a
    · rw [sweepKA_some paymentInfo a h] at hp
      injection hp with hp
      subst hp
      refine ⟨rfl, rfl, ?_, ?_⟩
      · show (a - paymentInfo a) + paymentInfo a = a
        omega
      · intro hf
        show a - paymentInfo a < a
        omega
    · rw [sweepKA_none paymentInfo a (by omega)] at hp
      exact absurd hp (by simp)
  · intro f g a h
    unfold sweepIfNeededKA
    rw [h]

/-- Witness for C10: two oracles agreeing at the full available balance
(`10^12 ↦ 10^8`) but nowhere else give the same decision. -/
theorem feeEstimatedOnFullAmount_witness :
    sweepIfNeededKA (fun _ => 100000000) 1000000000000 =
      sweepIfNeededKA (fun n => n / 10000) 1000000000000 :=
  feeEstimatedOnFullAmount.2 (fun _ => 100000000) (fun n => n / 10000)
    1000000000000 (by decide)

end Azero
